import Mathlib

/-!
Verification of the Cortex-M3/M4 exception-handling subsystem
(`exceptions.c` / `exceptions.h`): a shallow embedding of the fault-status
decoding, the configuration routine and the four low-level fault
trampolines, with theorems checking the specified behaviour.
-/

namespace Exceptions

/-! ### Status-register bit masks (exceptions.c, lines 22-42) -/

-- Usage fault status bits.
def SCB_CFSR_DIVBYZERO : Nat := 1 <<< 25
def SCB_CFSR_UNALIGNED : Nat := 1 <<< 24
def SCB_CFSR_UNDEFINSTR : Nat := 1 <<< 16

-- Bus fault status bits.
def SCB_CFSR_BFARVALID : Nat := 1 <<< 15
def SCB_CFSR_LSPERR : Nat := 1 <<< 13
def SCB_CFSR_STKERR : Nat := 1 <<< 12
def SCB_CFSR_UNSTKERR : Nat := 1 <<< 11
def SCB_CFSR_IMPRECISERR : Nat := 1 <<< 10
def SCB_CFSR_PRECISERR : Nat := 1 <<< 9
def SCB_CFSR_IBUSERR : Nat := 1 <<< 8

-- Memory manager fault status bits.
def SCB_CFSR_MMARVALID : Nat := 1 <<< 7
def SCB_CFSR_MLSPERR : Nat := 1 <<< 5
def SCB_CFSR_MSTKERR : Nat := 1 <<< 4
def SCB_CFSR_MUNSTKERR : Nat := 1 <<< 3
def SCB_CFSR_DACCVIOL : Nat := 1 <<< 1
def SCB_CFSR_IACCVIOL : Nat := 1 <<< 0

/-- Modelled from the spec: control-register and system-handler-control
bit-fields are supplied by the external register-definitions collaborator
(the CMSIS device header, not part of this repository); the values are the
architectural ARMv7-M positions. Divide-by-zero trap enable, SCB->CCR bit 4. -/
def SCB_CCR_DIV_0_TRP_Msk : Nat := 1 <<< 4

/-- Modelled from the spec: unaligned-access trap enable, SCB->CCR bit 3
(unused in the build, since TRAP_DIVIDE_BY_ZERO_ONLY is defined). -/
def SCB_CCR_UNALIGN_TRP_Msk : Nat := 1 <<< 3

/-- Modelled from the spec: usage-fault enable, SCB->SHCSR bit 18. -/
def SCB_SHCSR_USGFAULTENA_Msk : Nat := 1 <<< 18

/-- Modelled from the spec: bus-fault enable, SCB->SHCSR bit 17. -/
def SCB_SHCSR_BUSFAULTENA_Msk : Nat := 1 <<< 17

/-- Modelled from the spec: memory-management-fault enable, SCB->SHCSR bit 16. -/
def SCB_SHCSR_MEMFAULTENA_Msk : Nat := 1 <<< 16

/-- Sentinel printed for a register that was not read (exceptions.h line 11). -/
def EXCEPTION_HANDLER_FIELD_IS_INVALID : Nat := 0xDEADD0D0

/-! ### Data model (exceptions.h) -/

/-- ARM Cortex CPU exception stack frame (exceptions.h lines 14-24). -/
structure CortexExceptionCpuFrameType where
  m_R0 : Nat
  m_R1 : Nat
  m_R2 : Nat
  m_R3 : Nat
  m_R12 : Nat
  m_LR : Nat
  m_PC : Nat
  m_PSR : Nat
deriving Repr, DecidableEq

/-- Fault kind (exceptions.h lines 26-32). -/
inductive exceptionType where
  | Hard_Fault
  | MemMang_Fault
  | Bus_Fault
  | Usage_Fault
deriving Repr, DecidableEq

/-- The System Control Block registers this subsystem touches: CCR and SHCSR
are written by `exceptionsInit`; CFSR, HFSR, BFAR and MMFAR are read by
`printExtraInfo`. -/
structure SCBType where
  CCR : Nat
  SHCSR : Nat
  CFSR : Nat
  HFSR : Nat
  BFAR : Nat
  MMFAR : Nat
deriving Repr, DecidableEq

/-! ### exceptionsInit (exceptions.c lines 57-70)

The build defines TRAP_DIVIDE_BY_ZERO_ONLY (line 45), so the `#else` branch
runs: only SCB_CCR_DIV_0_TRP_Msk is ORed into CCR, and the three sub-fault
enables are ORed into SHCSR. No other register is touched. -/

def exceptionsInit (scb : SCBType) : SCBType :=
  { scb with
    CCR := scb.CCR ||| SCB_CCR_DIV_0_TRP_Msk
    SHCSR := scb.SHCSR |||
      (SCB_SHCSR_USGFAULTENA_Msk ||| SCB_SHCSR_BUSFAULTENA_Msk |||
        SCB_SHCSR_MEMFAULTENA_Msk) }

/-! ### printExtraInfo (exceptions.c lines 119-201)

Modelled as a pure function from the SCB registers, the captured frame and
the fault kind to a structured report.  The `hfsrRead` / `bfarRead` /
`mmfarRead` flags record whether the corresponding hardware register was
read on that path (the C code reads SCB->HFSR only in the Hard_Fault case,
SCB->BFAR only under BFARVALID, SCB->MMFAR only under MMARVALID). -/

structure ExtraInfoReport where
  typeLine : String
  reasonLine : String
  hfsr : Nat
  faultAdd : Nat
  hfsrRead : Bool
  bfarRead : Bool
  mmfarRead : Bool
  cfsr : Nat
  frame : CortexExceptionCpuFrameType
deriving Repr, DecidableEq

def printExtraInfo (scb : SCBType) (aFrame : CortexExceptionCpuFrameType)
    (eType : exceptionType) : ExtraInfoReport :=
  let cfsr := scb.CFSR
  match eType with
  | .Usage_Fault =>
    { typeLine := "Type: Usage Fault\r\n"
      reasonLine :=
        if cfsr &&& SCB_CFSR_DIVBYZERO ≠ 0 then "Reason: Division by zero\r\n\n"
        else if cfsr &&& SCB_CFSR_UNALIGNED ≠ 0 then "Reason: Misaligned data access\r\n\n"
        else if cfsr &&& SCB_CFSR_UNDEFINSTR ≠ 0 then "Reason: Undefined instruction\r\n\n"
        else "Reason: Unknown\r\n\n"
      hfsr := EXCEPTION_HANDLER_FIELD_IS_INVALID
      faultAdd := EXCEPTION_HANDLER_FIELD_IS_INVALID
      hfsrRead := false
      bfarRead := false
      mmfarRead := false
      cfsr := cfsr
      frame := aFrame }
  | .Bus_Fault =>
    { typeLine := "Type: Bus Fault\r\n"
      reasonLine :=
        if cfsr &&& SCB_CFSR_IBUSERR ≠ 0 then "Reason: Invalid code address\r\n\n"
        else if cfsr &&& (SCB_CFSR_PRECISERR ||| SCB_CFSR_IMPRECISERR) ≠ 0 then
          "Reason: Invalid data address\r\n\n"
        else if cfsr &&& (SCB_CFSR_STKERR ||| SCB_CFSR_UNSTKERR) ≠ 0 then
          "Reason: Exception stack fault\r\n\n"
        else if cfsr &&& SCB_CFSR_LSPERR ≠ 0 then "Reason: Floating point fault\r\n\n"
        else "Reason: Unknown\r\n\n"
      hfsr := EXCEPTION_HANDLER_FIELD_IS_INVALID
      faultAdd :=
        if cfsr &&& SCB_CFSR_BFARVALID ≠ 0 then scb.BFAR
        else EXCEPTION_HANDLER_FIELD_IS_INVALID
      hfsrRead := false
      bfarRead := cfsr &&& SCB_CFSR_BFARVALID ≠ 0
      mmfarRead := false
      cfsr := cfsr
      frame := aFrame }
  | .Hard_Fault =>
    { typeLine := "Type: Hard Fault\r\n"
      reasonLine := "Reason: Unknown\r\n\n"
      hfsr := scb.HFSR
      faultAdd := EXCEPTION_HANDLER_FIELD_IS_INVALID
      hfsrRead := true
      bfarRead := false
      mmfarRead := false
      cfsr := cfsr
      frame := aFrame }
  | .MemMang_Fault =>
    { typeLine := "Type: Memory Fault\r\n"
      reasonLine :=
        if cfsr &&& SCB_CFSR_IACCVIOL ≠ 0 then "Reason: Invalid code address\r\n\n"
        else if cfsr &&& SCB_CFSR_DACCVIOL ≠ 0 then "Reason: Invalid data address\r\n\n"
        else if cfsr &&& (SCB_CFSR_MSTKERR ||| SCB_CFSR_MUNSTKERR) ≠ 0 then
          "Reason: Exception stack fault\r\n\n"
        -- exceptions.c line 181 tests SCB_CFSR_LSPERR (bit 13) here,
        -- not SCB_CFSR_MLSPERR (bit 5): embedded faithfully.
        else if cfsr &&& SCB_CFSR_LSPERR ≠ 0 then "Reason: Floating point fault\r\n\n"
        else "Reason: Unknown\r\n\n"
      hfsr := EXCEPTION_HANDLER_FIELD_IS_INVALID
      faultAdd :=
        if cfsr &&& SCB_CFSR_MMARVALID ≠ 0 then scb.MMFAR
        else EXCEPTION_HANDLER_FIELD_IS_INVALID
      hfsrRead := false
      bfarRead := false
      mmfarRead := cfsr &&& SCB_CFSR_MMARVALID ≠ 0
      cfsr := cfsr
      frame := aFrame }

/-! ### Low level fault trampolines (exceptions.c lines 244-302)

All four naked handlers execute the same instruction sequence, differing
only in the handler they branch to:

    tst lr, #4 / ite eq / mrseq r0, msp / mrsne r0, psp
    mov r1, #0 / msr PRIMASK, r1 / msr FAULTMASK, r1
    ldr r1, =<handler> / bx r1

The machine state on entry is the link register (holding EXC_RETURN), the
two stack pointers and the two mask registers; the result is the frame
pointer handed to the handler in r0, the final mask-register values and
the branch target.  Note the source moves the constant 0 into r1 and
writes it into both PRIMASK and FAULTMASK. -/

structure TrampolineState where
  lr : Nat
  msp : Nat
  psp : Nat
  primask : Nat
  faultmask : Nat
deriving Repr, DecidableEq

inductive faultTarget where
  | hardFault
  | memMangFault
  | busFault
  | usageFault
deriving Repr, DecidableEq

structure TrampolineOut where
  r0 : Nat
  primask : Nat
  faultmask : Nat
  target : faultTarget
deriving Repr, DecidableEq

/-- The common body of the four trampolines: `tst lr, #4` sets the Z flag
iff lr AND 4 is zero, so `mrseq`/`mrsne` select MSP when bit 2 of lr is
clear and PSP when it is set; then r1 = 0 is written into PRIMASK and
FAULTMASK. -/
def trampolineBody (t : faultTarget) (s : TrampolineState) : TrampolineOut :=
  { r0 := if s.lr &&& 4 = 0 then s.msp else s.psp
    primask := 0
    faultmask := 0
    target := t }

def HardFault_Handler (s : TrampolineState) : TrampolineOut :=
  trampolineBody .hardFault s

def MemManage_Handler (s : TrampolineState) : TrampolineOut :=
  trampolineBody .memMangFault s

def BusFault_Handler (s : TrampolineState) : TrampolineOut :=
  trampolineBody .busFault s

def UsageFault_Handler (s : TrampolineState) : TrampolineOut :=
  trampolineBody .usageFault s

/-! ### Helper lemmas on Nat bit operations -/

theorem testBit_one_shiftLeft (i j : Nat) :
    (1 <<< i).testBit j = decide (i = j) := by
  rw [Nat.shiftLeft_eq, one_mul]
  by_cases h : i = j
  · subst h
    simp [Nat.testBit_two_pow_self]
  · simp [h, Nat.testBit_two_pow_of_ne h]

theorem land_one_shiftLeft_eq_zero_iff (n i : Nat) :
    (n &&& (1 <<< i) = 0) ↔ n.testBit i = false := by
  rw [Nat.shiftLeft_eq, one_mul, Nat.and_two_pow]
  cases h : n.testBit i <;> simp [h, Nat.pos_iff_ne_zero, pow_eq_zero_iff]

theorem land_one_shiftLeft_ne_zero_iff (n i : Nat) :
    (n &&& (1 <<< i) ≠ 0) ↔ n.testBit i = true := by
  rw [Ne, land_one_shiftLeft_eq_zero_iff]
  cases h : n.testBit i <;> simp

theorem eq_zero_iff_testBit_false (n : Nat) :
    n = 0 ↔ ∀ i, n.testBit i = false := by
  constructor
  · intro h i
    subst h
    simp
  · intro h
    apply Nat.eq_of_testBit_eq
    intro i
    simp [h i]

theorem land_pair_eq_zero_iff (n i j : Nat) :
    (n &&& ((1 <<< i) ||| (1 <<< j)) = 0) ↔
      (n.testBit i = false ∧ n.testBit j = false) := by
  rw [eq_zero_iff_testBit_false]
  constructor
  · intro h
    constructor
    · have hi := h i
      simpa [Nat.testBit_and, Nat.testBit_lor, testBit_one_shiftLeft] using hi
    · have hj := h j
      simpa [Nat.testBit_and, Nat.testBit_lor, testBit_one_shiftLeft] using hj
  · rintro ⟨hi, hj⟩ k
    simp only [Nat.testBit_and, Nat.testBit_lor, testBit_one_shiftLeft]
    by_cases hk1 : i = k
    · subst hk1
      simp [hi]
    · by_cases hk2 : j = k
      · subst hk2
        simp [hj]
      · simp [hk1, hk2]

theorem land_pair_ne_zero_iff (n i j : Nat) :
    (n &&& ((1 <<< i) ||| (1 <<< j)) ≠ 0) ↔
      (n.testBit i = true ∨ n.testBit j = true) := by
  rw [Ne, land_pair_eq_zero_iff]
  cases hi : n.testBit i <;> cases hj : n.testBit j <;> simp

theorem lor_lor_self (a m : Nat) : (a ||| m) ||| m = a ||| m := by
  apply Nat.eq_of_testBit_eq
  intro i
  simp [Nat.testBit_lor, Bool.or_assoc]

theorem testBit_sixteen (i : Nat) : Nat.testBit 16 i = decide (4 = i) := by
  simpa using testBit_one_shiftLeft 4 i

theorem testBit_shcsr_mask (i : Nat) :
    Nat.testBit 458752 i =
      (decide (18 = i) || decide (17 = i) || decide (16 = i)) := by
  have h : (458752 : Nat) = 1 <<< 18 ||| 1 <<< 17 ||| 1 <<< 16 := by decide
  rw [h, Nat.testBit_lor, Nat.testBit_lor, testBit_one_shiftLeft,
    testBit_one_shiftLeft, testBit_one_shiftLeft]

/-! ### Claim theorems -/

/-- Claim C1 (code bug): the claim states that every trampoline leaves
PRIMASK and FAULTMASK set (interrupts disabled, faults masked) in the state
handed to the handler.  The source instead executes `mov r1, #0` followed by
`msr PRIMASK, r1` and `msr FAULTMASK, r1`, writing 0 into both registers —
which on ARMv7-M enables interrupts and unmasks faults, contradicting the
adjacent source comments.  This theorem evaluates the embedded trampolines:
for every entry state, all four leave PRIMASK = 0 and FAULTMASK = 0. -/
theorem trampolines_write_zero_masks (s : TrampolineState) :
    (HardFault_Handler s).primask = 0 ∧ (HardFault_Handler s).faultmask = 0 ∧
    (MemManage_Handler s).primask = 0 ∧ (MemManage_Handler s).faultmask = 0 ∧
    (BusFault_Handler s).primask = 0 ∧ (BusFault_Handler s).faultmask = 0 ∧
    (UsageFault_Handler s).primask = 0 ∧ (UsageFault_Handler s).faultmask = 0 :=
  ⟨rfl, rfl, rfl, rfl, rfl, rfl, rfl, rfl⟩

/-- Claim C2 (code bug): the claim states that in the MemMang_Fault branch
the fourth decode rule tests MLSPERR (CFSR bit 5).  The source tests
SCB_CFSR_LSPERR (bit 13, a BusFault status bit) instead, although it
defines SCB_CFSR_MLSPERR for precisely this purpose and never uses it.
At CFSR = 0x20 (only MLSPERR set) the code reports "Unknown", and at
CFSR = 0x2000 (only the BusFault LSPERR bit set) the MemManage branch
reports the floating-point reason. -/
theorem memMang_branch_tests_bus_lsperr_bit :
    (printExtraInfo ⟨0, 0, 0x20, 0, 0, 0⟩ ⟨0, 0, 0, 0, 0, 0, 0, 0⟩
        .MemMang_Fault).reasonLine = "Reason: Unknown\r\n\n" ∧
    (printExtraInfo ⟨0, 0, 0x2000, 0, 0, 0⟩ ⟨0, 0, 0, 0, 0, 0, 0, 0⟩
        .MemMang_Fault).reasonLine = "Reason: Floating point fault\r\n\n" :=
  ⟨rfl, rfl⟩

/-- Claim C3: for BusFault and MemManageFault reports, the reported fault
address equals BFAR / MMFAR exactly when the corresponding validity bit
(CFSR bit 15 / bit 7) is set, and equals the sentinel 0xDEADD0D0 when it is
clear; the address register is read exactly when its validity bit is set. -/
theorem fault_address_validity_reporting (scb : SCBType)
    (f : CortexExceptionCpuFrameType) :
    ((printExtraInfo scb f .Bus_Fault).faultAdd =
      if scb.CFSR.testBit 15 then scb.BFAR
      else EXCEPTION_HANDLER_FIELD_IS_INVALID) ∧
    ((printExtraInfo scb f .Bus_Fault).bfarRead = scb.CFSR.testBit 15) ∧
    ((printExtraInfo scb f .MemMang_Fault).faultAdd =
      if scb.CFSR.testBit 7 then scb.MMFAR
      else EXCEPTION_HANDLER_FIELD_IS_INVALID) ∧
    ((printExtraInfo scb f .MemMang_Fault).mmfarRead = scb.CFSR.testBit 7) := by
  have hb : (scb.CFSR &&& 32768 = 0) ↔ scb.CFSR.testBit 15 = false := by
    simpa using land_one_shiftLeft_eq_zero_iff scb.CFSR 15
  have hm : (scb.CFSR &&& 128 = 0) ↔ scb.CFSR.testBit 7 = false := by
    simpa using land_one_shiftLeft_eq_zero_iff scb.CFSR 7
  refine ⟨?_, ?_, ?_, ?_⟩ <;>
    cases h15 : scb.CFSR.testBit 15 <;> cases h7 : scb.CFSR.testBit 7 <;>
    simp [printExtraInfo, SCB_CFSR_BFARVALID, SCB_CFSR_MMARVALID, hb, hm,
      h15, h7]

/-- Claim C4: every trampoline selects MSP as the frame pointer when bit 2
of the link register (EXC_RETURN) is clear, and PSP when it is set,
independent of fault kind. -/
theorem trampoline_stack_selection (s : TrampolineState) :
    (s.lr.testBit 2 = false →
      (HardFault_Handler s).r0 = s.msp ∧ (MemManage_Handler s).r0 = s.msp ∧
      (BusFault_Handler s).r0 = s.msp ∧ (UsageFault_Handler s).r0 = s.msp) ∧
    (s.lr.testBit 2 = true →
      (HardFault_Handler s).r0 = s.psp ∧ (MemManage_Handler s).r0 = s.psp ∧
      (BusFault_Handler s).r0 = s.psp ∧ (UsageFault_Handler s).r0 = s.psp) := by
  have h4 : (s.lr &&& 4 = 0) ↔ s.lr.testBit 2 = false := by
    have := land_one_shiftLeft_eq_zero_iff s.lr 2
    simpa using this
  constructor
  · intro h
    have hc : s.lr &&& 4 = 0 := h4.mpr h
    refine ⟨?_, ?_, ?_, ?_⟩ <;>
      simp [HardFault_Handler, MemManage_Handler, BusFault_Handler,
        UsageFault_Handler, trampolineBody, hc]
  · intro h
    have hc : ¬(s.lr &&& 4 = 0) := by
      intro h0
      rw [h4.mp h0] at h
      exact Bool.false_ne_true h
    refine ⟨?_, ?_, ?_, ?_⟩ <;>
      simp [HardFault_Handler, MemManage_Handler, BusFault_Handler,
        UsageFault_Handler, trampolineBody, hc]

/-- Witness for claim C4 at concrete EXC_RETURN values 0xFFFFFFF9 (bit 2
clear, MSP) and 0xFFFFFFFD (bit 2 set, PSP). -/
theorem trampoline_stack_selection_witness :
    (HardFault_Handler ⟨0xFFFFFFF9, 11, 22, 0, 0⟩).r0 = 11 ∧
    (UsageFault_Handler ⟨0xFFFFFFFD, 11, 22, 0, 0⟩).r0 = 22 :=
  ⟨((trampoline_stack_selection ⟨0xFFFFFFF9, 11, 22, 0, 0⟩).1 (by decide)).1,
   ((trampoline_stack_selection ⟨0xFFFFFFFD, 11, 22, 0, 0⟩).2 (by decide)).2.2.2⟩

/-- Claim C5: for every CFSR value, the Usage_Fault branch picks the single
Reason line first-match-wins in the order divide-by-zero (bit 25) >
unaligned access (bit 24) > undefined instruction (bit 16) > Unknown. -/
theorem usageFault_reason_priority (scb : SCBType)
    (f : CortexExceptionCpuFrameType) :
    (scb.CFSR.testBit 25 = true →
      (printExtraInfo scb f .Usage_Fault).reasonLine =
        "Reason: Division by zero\r\n\n") ∧
    (scb.CFSR.testBit 25 = false → scb.CFSR.testBit 24 = true →
      (printExtraInfo scb f .Usage_Fault).reasonLine =
        "Reason: Misaligned data access\r\n\n") ∧
    (scb.CFSR.testBit 25 = false → scb.CFSR.testBit 24 = false →
        scb.CFSR.testBit 16 = true →
      (printExtraInfo scb f .Usage_Fault).reasonLine =
        "Reason: Undefined instruction\r\n\n") ∧
    (scb.CFSR.testBit 25 = false → scb.CFSR.testBit 24 = false →
        scb.CFSR.testBit 16 = false →
      (printExtraInfo scb f .Usage_Fault).reasonLine =
        "Reason: Unknown\r\n\n") := by
  have e25 : (scb.CFSR &&& 33554432 = 0) ↔ scb.CFSR.testBit 25 = false := by
    simpa using land_one_shiftLeft_eq_zero_iff scb.CFSR 25
  have e24 : (scb.CFSR &&& 16777216 = 0) ↔ scb.CFSR.testBit 24 = false := by
    simpa using land_one_shiftLeft_eq_zero_iff scb.CFSR 24
  have e16 : (scb.CFSR &&& 65536 = 0) ↔ scb.CFSR.testBit 16 = false := by
    simpa using land_one_shiftLeft_eq_zero_iff scb.CFSR 16
  refine ⟨?_, ?_, ?_, ?_⟩ <;> intros <;>
    simp_all [printExtraInfo, SCB_CFSR_DIVBYZERO, SCB_CFSR_UNALIGNED,
      SCB_CFSR_UNDEFINSTR]

/-- Witness for claim C5, one concrete CFSR per decode rule; the first has
both the divide-by-zero and unaligned bits set and still reports division
by zero. -/
theorem usageFault_reason_priority_witness :
    (printExtraInfo ⟨0, 0, 0x3000000, 0, 0, 0⟩ ⟨0, 0, 0, 0, 0, 0, 0, 0⟩
        .Usage_Fault).reasonLine = "Reason: Division by zero\r\n\n" ∧
    (printExtraInfo ⟨0, 0, 0x1000000, 0, 0, 0⟩ ⟨0, 0, 0, 0, 0, 0, 0, 0⟩
        .Usage_Fault).reasonLine = "Reason: Misaligned data access\r\n\n" ∧
    (printExtraInfo ⟨0, 0, 0x10000, 0, 0, 0⟩ ⟨0, 0, 0, 0, 0, 0, 0, 0⟩
        .Usage_Fault).reasonLine = "Reason: Undefined instruction\r\n\n" ∧
    (printExtraInfo ⟨0, 0, 0, 0, 0, 0⟩ ⟨0, 0, 0, 0, 0, 0, 0, 0⟩
        .Usage_Fault).reasonLine = "Reason: Unknown\r\n\n" :=
  ⟨(usageFault_reason_priority ⟨0, 0, 0x3000000, 0, 0, 0⟩
      ⟨0, 0, 0, 0, 0, 0, 0, 0⟩).1 (by decide),
   (usageFault_reason_priority ⟨0, 0, 0x1000000, 0, 0, 0⟩
      ⟨0, 0, 0, 0, 0, 0, 0, 0⟩).2.1 (by decide) (by decide),
   (usageFault_reason_priority ⟨0, 0, 0x10000, 0, 0, 0⟩
      ⟨0, 0, 0, 0, 0, 0, 0, 0⟩).2.2.1 (by decide) (by decide) (by decide),
   (usageFault_reason_priority ⟨0, 0, 0, 0, 0, 0⟩
      ⟨0, 0, 0, 0, 0, 0, 0, 0⟩).2.2.2 (by decide) (by decide) (by decide)⟩

/-- Claim C6: for every CFSR value, the Bus_Fault branch picks the single
Reason line first-match-wins in the order instruction-bus error (bit 8) >
precise-or-imprecise data-bus error (bit 9 or 10) > stacking-or-unstacking
error (bit 12 or 11) > floating-point lazy-state error (bit 13) > Unknown. -/
theorem busFault_reason_priority (scb : SCBType)
    (f : CortexExceptionCpuFrameType) :
    (scb.CFSR.testBit 8 = true →
      (printExtraInfo scb f .Bus_Fault).reasonLine =
        "Reason: Invalid code address\r\n\n") ∧
    (scb.CFSR.testBit 8 = false →
        (scb.CFSR.testBit 9 || scb.CFSR.testBit 10) = true →
      (printExtraInfo scb f .Bus_Fault).reasonLine =
        "Reason: Invalid data address\r\n\n") ∧
    (scb.CFSR.testBit 8 = false → scb.CFSR.testBit 9 = false →
        scb.CFSR.testBit 10 = false →
        (scb.CFSR.testBit 12 || scb.CFSR.testBit 11) = true →
      (printExtraInfo scb f .Bus_Fault).reasonLine =
        "Reason: Exception stack fault\r\n\n") ∧
    (scb.CFSR.testBit 8 = false → scb.CFSR.testBit 9 = false →
        scb.CFSR.testBit 10 = false → scb.CFSR.testBit 12 = false →
        scb.CFSR.testBit 11 = false → scb.CFSR.testBit 13 = true →
      (printExtraInfo scb f .Bus_Fault).reasonLine =
        "Reason: Floating point fault\r\n\n") ∧
    (scb.CFSR.testBit 8 = false → scb.CFSR.testBit 9 = false →
        scb.CFSR.testBit 10 = false → scb.CFSR.testBit 12 = false →
        scb.CFSR.testBit 11 = false → scb.CFSR.testBit 13 = false →
      (printExtraInfo scb f .Bus_Fault).reasonLine =
        "Reason: Unknown\r\n\n") := by
  have e8 : (scb.CFSR &&& 256 = 0) ↔ scb.CFSR.testBit 8 = false := by
    simpa using land_one_shiftLeft_eq_zero_iff scb.CFSR 8
  have e910 : (scb.CFSR &&& 1536 = 0) ↔
      (scb.CFSR.testBit 9 = false ∧ scb.CFSR.testBit 10 = false) := by
    simpa using land_pair_eq_zero_iff scb.CFSR 9 10
  have e1211 : (scb.CFSR &&& 6144 = 0) ↔
      (scb.CFSR.testBit 12 = false ∧ scb.CFSR.testBit 11 = false) := by
    simpa using land_pair_eq_zero_iff scb.CFSR 12 11
  have e13 : (scb.CFSR &&& 8192 = 0) ↔ scb.CFSR.testBit 13 = false := by
    simpa using land_one_shiftLeft_eq_zero_iff scb.CFSR 13
  refine ⟨?_, ?_, ?_, ?_, ?_⟩ <;> intros <;>
    cases h9 : scb.CFSR.testBit 9 <;> cases h10 : scb.CFSR.testBit 10 <;>
    cases h12 : scb.CFSR.testBit 12 <;> cases h11 : scb.CFSR.testBit 11 <;>
    simp_all [printExtraInfo, SCB_CFSR_IBUSERR, SCB_CFSR_PRECISERR,
      SCB_CFSR_IMPRECISERR, SCB_CFSR_STKERR, SCB_CFSR_UNSTKERR,
      SCB_CFSR_LSPERR]

/-- Witness for claim C6, one concrete CFSR per decode rule. -/
theorem busFault_reason_priority_witness :
    (printExtraInfo ⟨0, 0, 0x100, 0, 0, 0⟩ ⟨0, 0, 0, 0, 0, 0, 0, 0⟩
        .Bus_Fault).reasonLine = "Reason: Invalid code address\r\n\n" ∧
    (printExtraInfo ⟨0, 0, 0x400, 0, 0, 0⟩ ⟨0, 0, 0, 0, 0, 0, 0, 0⟩
        .Bus_Fault).reasonLine = "Reason: Invalid data address\r\n\n" ∧
    (printExtraInfo ⟨0, 0, 0x800, 0, 0, 0⟩ ⟨0, 0, 0, 0, 0, 0, 0, 0⟩
        .Bus_Fault).reasonLine = "Reason: Exception stack fault\r\n\n" ∧
    (printExtraInfo ⟨0, 0, 0x2000, 0, 0, 0⟩ ⟨0, 0, 0, 0, 0, 0, 0, 0⟩
        .Bus_Fault).reasonLine = "Reason: Floating point fault\r\n\n" ∧
    (printExtraInfo ⟨0, 0, 0, 0, 0, 0⟩ ⟨0, 0, 0, 0, 0, 0, 0, 0⟩
        .Bus_Fault).reasonLine = "Reason: Unknown\r\n\n" :=
  ⟨(busFault_reason_priority ⟨0, 0, 0x100, 0, 0, 0⟩
      ⟨0, 0, 0, 0, 0, 0, 0, 0⟩).1 (by decide),
   (busFault_reason_priority ⟨0, 0, 0x400, 0, 0, 0⟩
      ⟨0, 0, 0, 0, 0, 0, 0, 0⟩).2.1 (by decide) (by decide),
   (busFault_reason_priority ⟨0, 0, 0x800, 0, 0, 0⟩
      ⟨0, 0, 0, 0, 0, 0, 0, 0⟩).2.2.1 (by decide) (by decide) (by decide)
      (by decide),
   (busFault_reason_priority ⟨0, 0, 0x2000, 0, 0, 0⟩
      ⟨0, 0, 0, 0, 0, 0, 0, 0⟩).2.2.2.1 (by decide) (by decide) (by decide)
      (by decide) (by decide) (by decide),
   (busFault_reason_priority ⟨0, 0, 0, 0, 0, 0⟩
      ⟨0, 0, 0, 0, 0, 0, 0, 0⟩).2.2.2.2 (by decide) (by decide) (by decide)
      (by decide) (by decide) (by decide)⟩

/-- Claim C7: for every CFSR and HFSR value, the Hard_Fault branch performs
no sub-cause decoding: the Reason line is always Unknown, and SCB->HFSR is
read and reported verbatim in the register dump. -/
theorem hardFault_reason_unknown_hfsr_verbatim (scb : SCBType)
    (f : CortexExceptionCpuFrameType) :
    (printExtraInfo scb f .Hard_Fault).reasonLine = "Reason: Unknown\r\n\n" ∧
    (printExtraInfo scb f .Hard_Fault).hfsr = scb.HFSR ∧
    (printExtraInfo scb f .Hard_Fault).hfsrRead = true :=
  ⟨rfl, rfl, rfl⟩

/-- Claim C8: exceptionsInit sets the divide-by-zero trap enable (CCR bit 4)
and the usage-, bus- and memory-management-fault enables (SHCSR bits 18, 17,
16), and is idempotent: a second call from the resulting state leaves the
registers unchanged. -/
theorem exceptionsInit_sets_enables_idempotent (scb : SCBType) :
    ((exceptionsInit scb).CCR.testBit 4 = true) ∧
    ((exceptionsInit scb).SHCSR.testBit 18 = true) ∧
    ((exceptionsInit scb).SHCSR.testBit 17 = true) ∧
    ((exceptionsInit scb).SHCSR.testBit 16 = true) ∧
    exceptionsInit (exceptionsInit scb) = exceptionsInit scb := by
  refine ⟨?_, ?_, ?_, ?_, ?_⟩
  · simp [exceptionsInit, SCB_CCR_DIV_0_TRP_Msk, Nat.testBit_lor,
      testBit_sixteen]
  · simp [exceptionsInit, SCB_SHCSR_USGFAULTENA_Msk, SCB_SHCSR_BUSFAULTENA_Msk,
      SCB_SHCSR_MEMFAULTENA_Msk, Nat.testBit_lor, testBit_shcsr_mask]
  · simp [exceptionsInit, SCB_SHCSR_USGFAULTENA_Msk, SCB_SHCSR_BUSFAULTENA_Msk,
      SCB_SHCSR_MEMFAULTENA_Msk, Nat.testBit_lor, testBit_shcsr_mask]
  · simp [exceptionsInit, SCB_SHCSR_USGFAULTENA_Msk, SCB_SHCSR_BUSFAULTENA_Msk,
      SCB_SHCSR_MEMFAULTENA_Msk, Nat.testBit_lor, testBit_shcsr_mask]
  · simp [exceptionsInit, lor_lor_self]

/-- Claim C9: SCB->HFSR is read only for Hard_Fault, the other three kinds
report the sentinel for HFSR; and for Hard_Fault and Usage_Fault the fault
address is always the sentinel, with neither BFAR nor MMFAR read. -/
theorem printExtraInfo_register_read_frame (scb : SCBType)
    (f : CortexExceptionCpuFrameType) :
    ((printExtraInfo scb f .Usage_Fault).hfsrRead = false ∧
      (printExtraInfo scb f .Usage_Fault).hfsr =
        EXCEPTION_HANDLER_FIELD_IS_INVALID) ∧
    ((printExtraInfo scb f .Bus_Fault).hfsrRead = false ∧
      (printExtraInfo scb f .Bus_Fault).hfsr =
        EXCEPTION_HANDLER_FIELD_IS_INVALID) ∧
    ((printExtraInfo scb f .MemMang_Fault).hfsrRead = false ∧
      (printExtraInfo scb f .MemMang_Fault).hfsr =
        EXCEPTION_HANDLER_FIELD_IS_INVALID) ∧
    ((printExtraInfo scb f .Hard_Fault).hfsrRead = true) ∧
    ((printExtraInfo scb f .Hard_Fault).faultAdd =
        EXCEPTION_HANDLER_FIELD_IS_INVALID ∧
      (printExtraInfo scb f .Hard_Fault).bfarRead = false ∧
      (printExtraInfo scb f .Hard_Fault).mmfarRead = false) ∧
    ((printExtraInfo scb f .Usage_Fault).faultAdd =
        EXCEPTION_HANDLER_FIELD_IS_INVALID ∧
      (printExtraInfo scb f .Usage_Fault).bfarRead = false ∧
      (printExtraInfo scb f .Usage_Fault).mmfarRead = false) :=
  ⟨⟨rfl, rfl⟩, ⟨rfl, rfl⟩, ⟨rfl, rfl⟩, rfl, ⟨rfl, rfl, rfl⟩, ⟨rfl, rfl, rfl⟩⟩

/-- Claim C10: exceptionsInit only ORs enable masks into CCR and SHCSR:
every bit set before the call stays set, every bit outside the written
masks (CCR bit 4; SHCSR bits 16, 17, 18) is unchanged, and no other
register of the SCB is written. -/
theorem exceptionsInit_or_only_frame (scb : SCBType) :
    (∀ i, scb.CCR.testBit i = true →
      (exceptionsInit scb).CCR.testBit i = true) ∧
    (∀ i, scb.SHCSR.testBit i = true →
      (exceptionsInit scb).SHCSR.testBit i = true) ∧
    (∀ i, i ≠ 4 → (exceptionsInit scb).CCR.testBit i = scb.CCR.testBit i) ∧
    (∀ i, i ≠ 16 → i ≠ 17 → i ≠ 18 →
      (exceptionsInit scb).SHCSR.testBit i = scb.SHCSR.testBit i) ∧
    (exceptionsInit scb).CFSR = scb.CFSR ∧
    (exceptionsInit scb).HFSR = scb.HFSR ∧
    (exceptionsInit scb).BFAR = scb.BFAR ∧
    (exceptionsInit scb).MMFAR = scb.MMFAR := by
  refine ⟨?_, ?_, ?_, ?_, rfl, rfl, rfl, rfl⟩
  · intro i h
    simp [exceptionsInit, Nat.testBit_lor, h]
  · intro i h
    simp [exceptionsInit, Nat.testBit_lor, h]
  · intro i hi
    have h4i : (4 : Nat) ≠ i := fun h => hi h.symm
    simp [exceptionsInit, SCB_CCR_DIV_0_TRP_Msk, Nat.testBit_lor,
      testBit_sixteen, h4i]
  · intro i h16 h17 h18
    have h16i : (16 : Nat) ≠ i := fun h => h16 h.symm
    have h17i : (17 : Nat) ≠ i := fun h => h17 h.symm
    have h18i : (18 : Nat) ≠ i := fun h => h18 h.symm
    simp [exceptionsInit, SCB_SHCSR_USGFAULTENA_Msk, SCB_SHCSR_BUSFAULTENA_Msk,
      SCB_SHCSR_MEMFAULTENA_Msk, Nat.testBit_lor, testBit_shcsr_mask,
      h16i, h17i, h18i]

/-- Witness for claim C10 at a concrete prior register state. -/
theorem exceptionsInit_or_only_frame_witness :
    (exceptionsInit ⟨2, 1, 7, 8, 9, 10⟩).CCR.testBit 1 = true ∧
    (exceptionsInit ⟨2, 1, 7, 8, 9, 10⟩).CCR.testBit 0 =
      (SCBType.mk 2 1 7 8 9 10).CCR.testBit 0 ∧
    (exceptionsInit ⟨2, 1, 7, 8, 9, 10⟩).SHCSR.testBit 0 =
      (SCBType.mk 2 1 7 8 9 10).SHCSR.testBit 0 :=
  ⟨(exceptionsInit_or_only_frame ⟨2, 1, 7, 8, 9, 10⟩).1 1 (by decide),
   (exceptionsInit_or_only_frame ⟨2, 1, 7, 8, 9, 10⟩).2.2.1 0 (by decide),
   (exceptionsInit_or_only_frame ⟨2, 1, 7, 8, 9, 10⟩).2.2.2.1 0 (by decide)
     (by decide) (by decide)⟩

end Exceptions
